import Mathlib

/-!
Verification of the org-user membership management slice
(`pkg/api/org_users.go` and `public/app/features/users/UsersTable.tsx`).

The Go handlers are embedded shallowly: the SQL store, the access-control
subsystem, the hidden-user predicate and the gravatar generator are external
collaborators, so they appear as function-valued fields threaded through an
explicit state type `σ`.  Each handler returns the HTTP response it built,
the final collaborator state, and the list of store calls it issued.
-/

namespace OrgUsers

/-- Go `models.RoleType` is a string type. -/
abbrev RoleType := String

/-- Modelled from the spec: `models.RoleType.IsValid` is not under `src/`;
the spec fixes the valid enumerated role set as Viewer, Editor, Admin. -/
def RoleType.isValid (r : RoleType) : Bool :=
  r == "Viewer" || r == "Editor" || r == "Admin"

/-- Go `accesscontrol.Metadata`: a map from action name to bool. -/
abbrev Metadata := List (String × Bool)

/-- The slice of `models.User` used by these handlers. -/
structure User where
  id : Int
  login : String
  email : String
  deriving DecidableEq

/-- Go `models.OrgUserDTO` (fields used by this file). -/
structure OrgUserDTO where
  orgId : Int
  userId : Int
  email : String
  name : String
  avatarUrl : String
  login : String
  role : String
  lastSeenAtAge : String
  accessControl : Option Metadata
  deriving DecidableEq

/-- Go `dtos.UserLookupDTO`. -/
structure UserLookupDTO where
  userID : Int
  login : String
  avatarURL : String
  deriving DecidableEq

/-- Go `models.SearchOrgUsersQueryResult`. -/
structure SearchOrgUsersQueryResult where
  totalCount : Int
  orgUsers : List OrgUserDTO
  page : Int
  perPage : Int
  deriving DecidableEq

/-- Go `models.AddOrgUserCommand`. -/
structure AddOrgUserCommand where
  loginOrEmail : String
  role : RoleType
  orgId : Int
  userId : Int
  deriving DecidableEq

/-- Go `models.UpdateOrgUserCommand`. -/
structure UpdateOrgUserCommand where
  role : RoleType
  orgId : Int
  userId : Int
  deriving DecidableEq

/-- Go `models.RemoveOrgUserCommand` (`UserWasDeleted` is an output set by the
store; here the store returns it). -/
structure RemoveOrgUserCommand where
  userId : Int
  orgId : Int
  shouldDeleteOrphanedUser : Bool
  deriving DecidableEq

/-- Go `models.GetOrgUsersQuery` (input fields). -/
structure GetOrgUsersQuery where
  orgId : Int
  query : String
  limit : Int
  deriving DecidableEq

/-- Go `models.SearchOrgUsersQuery` (input fields). -/
structure SearchOrgUsersQuery where
  orgID : Int
  query : String
  limit : Int
  page : Int
  deriving DecidableEq

/-- Store errors distinguished by the handlers via `errors.Is`; every other
error is `other`. -/
inductive StoreError where
  | errOrgUserAlreadyAdded
  | errLastOrgAdmin
  | other (msg : String)
  deriving DecidableEq

/-- Mirrors `errors.Is(err, models.ErrOrgUserAlreadyAdded)`. -/
def StoreError.isAlreadyAdded : StoreError → Bool
  | .errOrgUserAlreadyAdded => true
  | _ => false

/-- Mirrors `errors.Is(err, models.ErrLastOrgAdmin)`. -/
def StoreError.isLastOrgAdmin : StoreError → Bool
  | .errLastOrgAdmin => true
  | _ => false

/-- A record of one call issued to the SQL store. -/
inductive StoreCall where
  | getUserByLogin (loginOrEmail : String)
  | addOrgUser (cmd : AddOrgUserCommand)
  | updateOrgUser (cmd : UpdateOrgUserCommand)
  | removeOrgUser (cmd : RemoveOrgUserCommand)
  | getOrgUsers (query : GetOrgUsersQuery)
  | searchOrgUsers (query : SearchOrgUsersQuery)
  deriving DecidableEq

/-- The `SQLStore` collaborator: each operation consumes and produces an
abstract store state `σ` together with its Go return value. -/
structure Store (σ : Type) where
  getUserByLogin : String → σ → Except StoreError User × σ
  addOrgUser : AddOrgUserCommand → σ → Except StoreError Unit × σ
  updateOrgUser : UpdateOrgUserCommand → σ → Except StoreError Unit × σ
  removeOrgUser : RemoveOrgUserCommand → σ → Except StoreError Bool × σ
  getOrgUsers : GetOrgUsersQuery → σ → Except StoreError (List OrgUserDTO) × σ
  searchOrgUsers : SearchOrgUsersQuery → σ → Except StoreError SearchOrgUsersQueryResult × σ

/-- The slice of `models.SignedInUser` consumed by the hidden-user predicate
and the permission query. -/
structure SignedInUser where
  userId : Int
  login : String
  isGrafanaAdmin : Bool
  deriving DecidableEq

/-- The slice of `setting.Cfg` consumed by the hidden-user predicate. -/
structure Cfg where
  hiddenUsers : List String
  deriving DecidableEq

/-- Go `accesscontrol.Permission` (fields irrelevant here, kept opaque). -/
structure Permission where
  action : String
  scope : String
  deriving DecidableEq

/-- The `AccessControl` collaborator consumed by
`getUserAccessControlMetadata`. -/
structure AccessControl where
  isDisabled : Bool
  getUserPermissions : SignedInUser → Except String (List Permission)
  getResourcesMetadata : List Permission → String → List String → List (String × Metadata)

/-- JSON response bodies produced by these handlers. -/
inductive Body where
  | msgUser (message : String) (userId : Int)
  | users (list : List OrgUserDTO)
  | lookups (list : List UserLookupDTO)
  | search (result : SearchOrgUsersQueryResult)
  deriving DecidableEq

/-- Go `response.Response` as produced here: `response.Error`,
`response.JSON`, or `response.Success` (an HTTP 200 with a message body). -/
inductive Resp where
  | error (status : Nat) (message : String)
  | json (status : Nat) (body : Body)
  | success (message : String)
  deriving DecidableEq

/-- The HTTP status carried by a response (`response.Success` is 200). -/
def Resp.status : Resp → Nat
  | .error st _ => st
  | .json st _ => st
  | .success _ => 200

/-- The `HTTPServer` receiver: the store, the optional access-control engine,
the configuration, and the two external pure helpers from `pkg/api/dtos`. -/
structure HTTPServer (σ : Type) where
  store : Store σ
  accessControl : Option AccessControl
  cfg : Cfg
  isHiddenUser : String → SignedInUser → Cfg → Bool
  getGravatarUrl : String → String

/-- The slice of `models.ReqContext` read by these handlers: the current org,
the signed-in user, and the parsed query/path parameters. -/
structure ReqContext where
  orgId : Int
  signedInUser : SignedInUser
  queryQuery : String
  queryLimit : Int
  queryPerpage : Int
  queryPage : Int
  queryAccesscontrol : Bool
  paramOrgId : Int
  paramUserId : Int
  deriving DecidableEq

/-- Result of one handler invocation: the response, the final collaborator
state, and the store calls issued in order. -/
structure HandlerResult (σ : Type) where
  resp : Resp
  state : σ
  calls : List StoreCall

/-- `addOrgUserHelper` (org_users.go lines 37 to 66). -/
def addOrgUserHelper (hs : HTTPServer σ) (cmd : AddOrgUserCommand) (s : σ) :
    HandlerResult σ :=
  if !(RoleType.isValid cmd.role) then
    ⟨.error 400 "Invalid role specified", s, []⟩
  else
    match hs.store.getUserByLogin cmd.loginOrEmail s with
    | (.error _, s1) =>
      ⟨.error 404 "User not found", s1, [.getUserByLogin cmd.loginOrEmail]⟩
    | (.ok userToAdd, s1) =>
      let cmd1 : AddOrgUserCommand := { cmd with userId := userToAdd.id }
      match hs.store.addOrgUser cmd1 s1 with
      | (.error e, s2) =>
        if StoreError.isAlreadyAdded e then
          ⟨.json 409 (.msgUser "User is already member of this organization" cmd1.userId),
            s2, [.getUserByLogin cmd.loginOrEmail, .addOrgUser cmd1]⟩
        else
          ⟨.error 500 "Could not add user to organization",
            s2, [.getUserByLogin cmd.loginOrEmail, .addOrgUser cmd1]⟩
      | (.ok _, s2) =>
        ⟨.json 200 (.msgUser "User added to organization" cmd1.userId),
          s2, [.getUserByLogin cmd.loginOrEmail, .addOrgUser cmd1]⟩

/-- `AddOrgUserToCurrentOrg` (POST /api/org/users); the request body is
modelled as already bound into `cmd`. -/
def AddOrgUserToCurrentOrg (hs : HTTPServer σ) (c : ReqContext)
    (cmd : AddOrgUserCommand) (s : σ) : HandlerResult σ :=
  addOrgUserHelper hs { cmd with orgId := c.orgId } s

/-- `AddOrgUser` (POST /api/orgs/:orgId/users). -/
def AddOrgUser (hs : HTTPServer σ) (c : ReqContext)
    (cmd : AddOrgUserCommand) (s : σ) : HandlerResult σ :=
  addOrgUserHelper hs { cmd with orgId := c.paramOrgId } s

/-- `getUserAccessControlMetadata` (org_users.go lines 108 to 119).
`Except.error` is the Go path returning a non-nil error; `.ok none` is the
Go path returning a nil map with a nil error. -/
def getUserAccessControlMetadata (hs : HTTPServer σ) (c : ReqContext)
    (resourceIDs : List String) : Except String (Option (List (String × Metadata))) :=
  match hs.accessControl with
  | none => .ok none
  | some ac =>
    if ac.isDisabled || !c.queryAccesscontrol then .ok none
    else
      match ac.getUserPermissions c.signedInUser with
      | .error e => .error e
      | .ok userPermissions =>
        if userPermissions.length == 0 then .ok none
        else .ok (some (ac.getResourcesMetadata userPermissions "users" resourceIDs))

/-- The `userIDs` map built by `getOrgUsersHelper`: the stringified user ids
of the filtered users, deduplicated. -/
def orgUserResourceIDs (us : List OrgUserDTO) : List String :=
  (us.map (fun u => toString u.userId)).eraseDups

/-- Indexing a possibly nil Go map: absent keys (and a nil map) give the zero
value, here `none`. -/
def metaLookup (md : Option (List (String × Metadata))) (key : String) : Option Metadata :=
  match md with
  | none => none
  | some m => m.lookup key

/-- The visibility-and-avatar pass of `getOrgUsersHelper` and
`SearchOrgUsersWithPaging`: drop hidden users, set the gravatar URL. -/
def filterHiddenAndSetAvatar (hs : HTTPServer σ) (signedInUser : SignedInUser)
    (rows : List OrgUserDTO) : List OrgUserDTO :=
  (rows.filter (fun u => !(hs.isHiddenUser u.login signedInUser hs.cfg))).map
    (fun u => { u with avatarUrl := hs.getGravatarUrl u.email })

/-- `getOrgUsersHelper` (org_users.go lines 136 to 165). -/
def getOrgUsersHelper (hs : HTTPServer σ) (c : ReqContext)
    (query : GetOrgUsersQuery) (signedInUser : SignedInUser) (s : σ) :
    Except StoreError (List OrgUserDTO) × σ :=
  match hs.store.getOrgUsers query s with
  | (.error e, s1) => (.error e, s1)
  | (.ok rows, s1) =>
    let filteredUsers := filterHiddenAndSetAvatar hs signedInUser rows
    let userIDs := orgUserResourceIDs filteredUsers
    match getUserAccessControlMetadata hs c userIDs with
    | .error _ => (.ok filteredUsers, s1)
    | .ok accessControlMetadata =>
      (.ok (filteredUsers.map (fun u =>
        { u with accessControl := metaLookup accessControlMetadata (toString u.userId) })), s1)

/-- `GetOrgUsersForCurrentOrg` (GET /api/org/users). -/
def GetOrgUsersForCurrentOrg (hs : HTTPServer σ) (c : ReqContext) (s : σ) :
    Resp × σ :=
  match getOrgUsersHelper hs c
      { orgId := c.orgId, query := c.queryQuery, limit := c.queryLimit }
      c.signedInUser s with
  | (.error _, s1) =>
    (.error 500 "Failed to get users for current organization", s1)
  | (.ok result, s1) => (.json 200 (.users result), s1)

/-- `GetOrgUsersForCurrentOrgLookup` (GET /api/org/users/lookup). -/
def GetOrgUsersForCurrentOrgLookup (hs : HTTPServer σ) (c : ReqContext) (s : σ) :
    Resp × σ :=
  match getOrgUsersHelper hs c
      { orgId := c.orgId, query := c.queryQuery, limit := c.queryLimit }
      c.signedInUser s with
  | (.error _, s1) =>
    (.error 500 "Failed to get users for current organization", s1)
  | (.ok orgUsers, s1) =>
    (.json 200 (.lookups (orgUsers.map (fun u =>
      { userID := u.userId, login := u.login, avatarURL := u.avatarUrl }))), s1)

/-- `GetOrgUsers` (GET /api/orgs/:orgId/users). -/
def GetOrgUsers (hs : HTTPServer σ) (c : ReqContext) (s : σ) : Resp × σ :=
  match getOrgUsersHelper hs c
      { orgId := c.paramOrgId, query := "", limit := 0 }
      c.signedInUser s with
  | (.error _, s1) => (.error 500 "Failed to get users for organization", s1)
  | (.ok result, s1) => (.json 200 (.users result), s1)

/-- `SearchOrgUsersWithPaging` (GET /api/org/users/search,
org_users.go lines 169 to 207). -/
def SearchOrgUsersWithPaging (hs : HTTPServer σ) (c : ReqContext) (s : σ) :
    HandlerResult σ :=
  let perPage := if c.queryPerpage ≤ 0 then 1000 else c.queryPerpage
  let page := if c.queryPage < 1 then 1 else c.queryPage
  let query : SearchOrgUsersQuery :=
    { orgID := c.orgId, query := c.queryQuery, limit := perPage, page := page }
  match hs.store.searchOrgUsers query s with
  | (.error _, s1) =>
    ⟨.error 500 "Failed to get users for current organization", s1,
      [.searchOrgUsers query]⟩
  | (.ok result, s1) =>
    let filteredUsers := filterHiddenAndSetAvatar hs c.signedInUser result.orgUsers
    ⟨.json 200 (.search
      { result with orgUsers := filteredUsers, page := page, perPage := perPage }),
      s1, [.searchOrgUsers query]⟩

/-- `updateOrgUserHelper` (org_users.go lines 231 to 243). -/
def updateOrgUserHelper (hs : HTTPServer σ) (cmd : UpdateOrgUserCommand) (s : σ) :
    HandlerResult σ :=
  if !(RoleType.isValid cmd.role) then
    ⟨.error 400 "Invalid role specified", s, []⟩
  else
    match hs.store.updateOrgUser cmd s with
    | (.error e, s1) =>
      if StoreError.isLastOrgAdmin e then
        ⟨.error 400 "Cannot change role so that there is no organization admin left",
          s1, [.updateOrgUser cmd]⟩
      else
        ⟨.error 500 "Failed update org user", s1, [.updateOrgUser cmd]⟩
    | (.ok _, s1) =>
      ⟨.success "Organization user updated", s1, [.updateOrgUser cmd]⟩

/-- `UpdateOrgUserForCurrentOrg` (PATCH /api/org/users/:userId). -/
def UpdateOrgUserForCurrentOrg (hs : HTTPServer σ) (c : ReqContext)
    (cmd : UpdateOrgUserCommand) (s : σ) : HandlerResult σ :=
  updateOrgUserHelper hs { cmd with orgId := c.orgId, userId := c.paramUserId } s

/-- `UpdateOrgUser` (PATCH /api/orgs/:orgId/users/:userId). -/
def UpdateOrgUser (hs : HTTPServer σ) (c : ReqContext)
    (cmd : UpdateOrgUserCommand) (s : σ) : HandlerResult σ :=
  updateOrgUserHelper hs { cmd with orgId := c.paramOrgId, userId := c.paramUserId } s

/-- `removeOrgUserHelper` (org_users.go lines 262 to 275); the store returns
the `UserWasDeleted` flag it set on the command. -/
def removeOrgUserHelper (hs : HTTPServer σ) (cmd : RemoveOrgUserCommand) (s : σ) :
    HandlerResult σ :=
  match hs.store.removeOrgUser cmd s with
  | (.error e, s1) =>
    if StoreError.isLastOrgAdmin e then
      ⟨.error 400 "Cannot remove last organization admin", s1, [.removeOrgUser cmd]⟩
    else
      ⟨.error 500 "Failed to remove user from organization", s1, [.removeOrgUser cmd]⟩
  | (.ok userWasDeleted, s1) =>
    if userWasDeleted then
      ⟨.success "User deleted", s1, [.removeOrgUser cmd]⟩
    else
      ⟨.success "User removed from organization", s1, [.removeOrgUser cmd]⟩

/-- `RemoveOrgUserForCurrentOrg` (DELETE /api/org/users/:userId): requests
orphan cleanup. -/
def RemoveOrgUserForCurrentOrg (hs : HTTPServer σ) (c : ReqContext) (s : σ) :
    HandlerResult σ :=
  removeOrgUserHelper hs
    { userId := c.paramUserId, orgId := c.orgId, shouldDeleteOrphanedUser := true } s

/-- `RemoveOrgUser` (DELETE /api/orgs/:orgId/users/:userId): the Go command
literal omits `ShouldDeleteOrphanedUser`, so it is the zero value `false`. -/
def RemoveOrgUser (hs : HTTPServer σ) (c : ReqContext) (s : σ) :
    HandlerResult σ :=
  removeOrgUserHelper hs
    { userId := c.paramUserId, orgId := c.paramOrgId, shouldDeleteOrphanedUser := false } s

namespace Ui

/-- TS `OrgUser` (app/types) slice rendered by `UsersTable`. -/
structure OrgUser where
  userId : Int
  login : String
  email : String
  name : String
  avatarUrl : String
  lastSeenAtAge : String
  role : String
  deriving DecidableEq

/-- The `contextSrv` permission checks consumed by `UsersTable`:
`hasPermissionInMetadata(AccessControlAction.OrgUsersRemove, user)` and the
role-update counterpart. -/
structure ContextSrv where
  accessControlEnabled : Bool
  hasRemovePermission : OrgUser → Bool
  hasRoleUpdatePermission : OrgUser → Bool

/-- JS `Boolean(s)` for a string: truthy exactly when non-empty. -/
def boolOfString (s : String) : Bool := s != ""

/-- Whether the delete cell (button plus confirm modal) is rendered for a row
(UsersTable.tsx line 101). -/
def deleteCellRendered (ctx : ContextSrv) (u : OrgUser) : Bool :=
  ctx.hasRemovePermission u

/-- The `isOpen` prop of the row's `ConfirmModal`
(`Boolean(user.login) === showRemoveModal`, UsersTable.tsx line 115);
`none` when the delete cell is not rendered at all. -/
def confirmModalIsOpen (ctx : ContextSrv) (showRemoveModal : Bool) (u : OrgUser) :
    Option Bool :=
  if ctx.hasRemovePermission u then some (boolOfString u.login == showRemoveModal)
  else none

/-- The listed users whose confirm modal is rendered open. -/
def openRemoveModals (ctx : ContextSrv) (showRemoveModal : Bool)
    (users : List OrgUser) : List OrgUser :=
  users.filter (fun u => confirmModalIsOpen ctx showRemoveModal u == some true)

/-- User interactions on a rendered row. -/
inductive Event where
  | clickDelete (u : OrgUser)
  | confirmRemove (u : OrgUser)
  | dismissRemove (u : OrgUser)
  | changeRole (role : String) (u : OrgUser)
  deriving DecidableEq

/-- Invocations of the callbacks the component received as props. -/
inductive CallbackCall where
  | onRemoveUser (u : OrgUser)
  | onRoleChange (role : String) (u : OrgUser)
  deriving DecidableEq

/-- The event handlers of `UsersTable` acting on the single shared
`showRemoveModal` flag: the delete button runs
`setShowRemoveModal(Boolean(user.login))`; `onConfirm` invokes
`onRemoveUser(user)`; `onDismiss` runs `setShowRemoveModal(false)`;
the role pickers invoke `onRoleChange(newRole, user)`.  The result is the new
flag value and the callback invocations emitted by the handler. -/
def usersTableStep : Bool → Event → Bool × List CallbackCall
  | _, .clickDelete u => (boolOfString u.login, [])
  | s, .confirmRemove u => (s, [.onRemoveUser u])
  | _, .dismissRemove _ => (false, [])
  | s, .changeRole r u => (s, [.onRoleChange r u])

end Ui

/-! ### Concrete fixtures used by counterexamples and witnesses -/

/-- A store whose operations return fixed results and leave the state as is. -/
def constStore (lookupRes : Except StoreError User) (addRes : Except StoreError Unit)
    (updRes : Except StoreError Unit) (remRes : Except StoreError Bool)
    (getRes : Except StoreError (List OrgUserDTO))
    (searchRes : Except StoreError SearchOrgUsersQueryResult) : Store Unit where
  getUserByLogin := fun _ s => (lookupRes, s)
  addOrgUser := fun _ s => (addRes, s)
  updateOrgUser := fun _ s => (updRes, s)
  removeOrgUser := fun _ s => (remRes, s)
  getOrgUsers := fun _ s => (getRes, s)
  searchOrgUsers := fun _ s => (searchRes, s)

/-- A server over a given store, with no access control engine, no hidden
users, and a tagging gravatar generator. -/
def mkServer (st : Store Unit) : HTTPServer Unit where
  store := st
  accessControl := none
  cfg := { hiddenUsers := ["hidden"] }
  isHiddenUser := fun login _ cfg => cfg.hiddenUsers.contains login
  getGravatarUrl := fun email => "gravatar:" ++ email

/-- The user record resolved by the fixture lookups. -/
def aliceUser : User := { id := 7, login := "alice", email := "alice@example.com" }

/-- A fixture row as the store returns it. -/
def aliceDto : OrgUserDTO :=
  { orgId := 1, userId := 7, email := "alice@example.com", name := "Alice",
    avatarUrl := "", login := "alice", role := "Viewer", lastSeenAtAge := "10m",
    accessControl := none }

/-- A fixture row whose login the fixture configuration hides. -/
def hiddenDto : OrgUserDTO :=
  { orgId := 1, userId := 8, email := "hidden@example.com", name := "Hidden",
    avatarUrl := "", login := "hidden", role := "Admin", lastSeenAtAge := "1m",
    accessControl := none }

/-- Empty search result fixture. -/
def emptySearchResult : SearchOrgUsersQueryResult :=
  { totalCount := 0, orgUsers := [], page := 0, perPage := 0 }

/-- A request context fixture. -/
def baseCtx : ReqContext :=
  { orgId := 1, signedInUser := { userId := 2, login := "admin", isGrafanaAdmin := true },
    queryQuery := "", queryLimit := 0, queryPerpage := 0, queryPage := 0,
    queryAccesscontrol := false, paramOrgId := 3, paramUserId := 7 }

/-- Fixture store: lookup resolves alice, insertion reports she is already a
member. -/
def storeAlreadyMember : Store Unit :=
  constStore (.ok aliceUser) (.error .errOrgUserAlreadyAdded) (.ok ()) (.ok false)
    (.ok []) (.ok emptySearchResult)

/-- Fixture store: every operation fails with a transport-level error. -/
def storeDbDown : Store Unit :=
  constStore (.error (.other "connection refused")) (.error (.other "connection refused"))
    (.error (.other "connection refused")) (.error (.other "connection refused"))
    (.error (.other "connection refused")) (.error (.other "connection refused"))

/-- Fixture store: update and remove report the last-admin invariant. -/
def storeLastAdmin : Store Unit :=
  constStore (.ok aliceUser) (.ok ()) (.error .errLastOrgAdmin) (.error .errLastOrgAdmin)
    (.ok [aliceDto]) (.ok emptySearchResult)

/-- Fixture add command. -/
def addAliceCmd : AddOrgUserCommand :=
  { loginOrEmail := "alice", role := "Viewer", orgId := 1, userId := 0 }

/-- Fixture update command. -/
def updAliceCmd : UpdateOrgUserCommand := { role := "Editor", orgId := 1, userId := 7 }

/-- Fixture remove command. -/
def remAliceCmd : RemoveOrgUserCommand :=
  { userId := 7, orgId := 1, shouldDeleteOrphanedUser := false }

/-- Claim C1, counterexample: when the store reports the user is already a
member of the organization, the handler answers HTTP 409, not the claimed
success-shaped 200. -/
theorem claim_C1_counterexample :
    (addOrgUserHelper (mkServer storeAlreadyMember) addAliceCmd ()).resp.status = 409
    ∧ (addOrgUserHelper (mkServer storeAlreadyMember) addAliceCmd ()).resp.status ≠ 200 := by
  decide

/-- Claim C1, amended: for every add-member request whose store call reports
the user is already a member, the handler returns HTTP 409 whose JSON body
carries the explanatory message and the userId, rather than an error
envelope. -/
theorem claim_C1 (σ : Type) (hs : HTTPServer σ) (cmd : AddOrgUserCommand)
    (s s1 s2 : σ) (u : User)
    (hrole : RoleType.isValid cmd.role = true)
    (hlookup : hs.store.getUserByLogin cmd.loginOrEmail s = (.ok u, s1))
    (hadd : hs.store.addOrgUser { cmd with userId := u.id } s1
      = (.error .errOrgUserAlreadyAdded, s2)) :
    addOrgUserHelper hs cmd s
      = ⟨.json 409 (.msgUser "User is already member of this organization" u.id), s2,
          [.getUserByLogin cmd.loginOrEmail, .addOrgUser { cmd with userId := u.id }]⟩ := by
  unfold addOrgUserHelper
  simp [hrole, hlookup, hadd, StoreError.isAlreadyAdded]

/-- Witness for claim C1 at the fixture input. -/
theorem claim_C1_witness :
    addOrgUserHelper (mkServer storeAlreadyMember) addAliceCmd ()
      = ⟨.json 409 (.msgUser "User is already member of this organization" 7), (),
          [.getUserByLogin "alice", .addOrgUser { addAliceCmd with userId := 7 }]⟩ :=
  claim_C1 Unit (mkServer storeAlreadyMember) addAliceCmd () () () aliceUser
    (by decide) rfl rfl

/-- Claim C2: on the last-admin store error the update and remove handlers
fail with HTTP 400 and their descriptive messages and, the store having left
membership unchanged per its transactional contract, hand back the untouched
state with exactly the one store call; any other store failure on these paths
yields HTTP 500. -/
theorem claim_C2 (σ : Type) (hs : HTTPServer σ) (ucmd : UpdateOrgUserCommand)
    (rcmd : RemoveOrgUserCommand) (s : σ) (e e2 : StoreError) :
    (RoleType.isValid ucmd.role = true →
      hs.store.updateOrgUser ucmd s = (.error .errLastOrgAdmin, s) →
      updateOrgUserHelper hs ucmd s
        = ⟨.error 400 "Cannot change role so that there is no organization admin left",
            s, [.updateOrgUser ucmd]⟩)
    ∧ (RoleType.isValid ucmd.role = true →
      (hs.store.updateOrgUser ucmd s).1 = .error e →
      StoreError.isLastOrgAdmin e = false →
      (updateOrgUserHelper hs ucmd s).resp = .error 500 "Failed update org user")
    ∧ (hs.store.removeOrgUser rcmd s = (.error .errLastOrgAdmin, s) →
      removeOrgUserHelper hs rcmd s
        = ⟨.error 400 "Cannot remove last organization admin", s, [.removeOrgUser rcmd]⟩)
    ∧ ((hs.store.removeOrgUser rcmd s).1 = .error e2 →
      StoreError.isLastOrgAdmin e2 = false →
      (removeOrgUserHelper hs rcmd s).resp
        = .error 500 "Failed to remove user from organization") := by
  refine ⟨?_, ?_, ?_, ?_⟩
  · intro hrole hupd
    unfold updateOrgUserHelper
    simp [hrole, hupd, StoreError.isLastOrgAdmin]
  · intro hrole h1 h2
    unfold updateOrgUserHelper
    cases hq : hs.store.updateOrgUser ucmd s with
    | mk res s1 =>
      rw [hq] at h1
      have h3 : res = .error e := h1
      subst h3
      simp [hrole, h2]
  · intro hrem
    unfold removeOrgUserHelper
    simp [hrem, StoreError.isLastOrgAdmin]
  · intro h1 h2
    unfold removeOrgUserHelper
    cases hq : hs.store.removeOrgUser rcmd s with
    | mk res s1 =>
      rw [hq] at h1
      have h3 : res = .error e2 := h1
      subst h3
      simp [h2]

/-- Witness for claim C2 at the fixture inputs. -/
theorem claim_C2_witness :
    updateOrgUserHelper (mkServer storeLastAdmin) updAliceCmd ()
      = ⟨.error 400 "Cannot change role so that there is no organization admin left",
          (), [.updateOrgUser updAliceCmd]⟩
    ∧ removeOrgUserHelper (mkServer storeLastAdmin) remAliceCmd ()
      = ⟨.error 400 "Cannot remove last organization admin", (), [.removeOrgUser remAliceCmd]⟩
    ∧ (updateOrgUserHelper (mkServer storeDbDown) updAliceCmd ()).resp
      = .error 500 "Failed update org user"
    ∧ (removeOrgUserHelper (mkServer storeDbDown) remAliceCmd ()).resp
      = .error 500 "Failed to remove user from organization" :=
  ⟨(claim_C2 Unit (mkServer storeLastAdmin) updAliceCmd remAliceCmd ()
      .errLastOrgAdmin .errLastOrgAdmin).1 (by decide) rfl,
   (claim_C2 Unit (mkServer storeLastAdmin) updAliceCmd remAliceCmd ()
      .errLastOrgAdmin .errLastOrgAdmin).2.2.1 rfl,
   (claim_C2 Unit (mkServer storeDbDown) updAliceCmd remAliceCmd ()
      (.other "connection refused") (.other "connection refused")).2.1 (by decide) rfl rfl,
   (claim_C2 Unit (mkServer storeDbDown) updAliceCmd remAliceCmd ()
      (.other "connection refused") (.other "connection refused")).2.2.2 rfl rfl⟩

/-- Claim C3: an add or update request whose role is outside the valid
enumerated set is answered HTTP 400 "Invalid role specified", the state is
untouched, and no store call at all is issued. -/
theorem claim_C3 (σ : Type) (hs : HTTPServer σ) (acmd : AddOrgUserCommand)
    (ucmd : UpdateOrgUserCommand) (s : σ)
    (ha : RoleType.isValid acmd.role = false)
    (hu : RoleType.isValid ucmd.role = false) :
    addOrgUserHelper hs acmd s = ⟨.error 400 "Invalid role specified", s, []⟩
    ∧ updateOrgUserHelper hs ucmd s = ⟨.error 400 "Invalid role specified", s, []⟩ := by
  constructor
  · unfold addOrgUserHelper
    simp [ha]
  · unfold updateOrgUserHelper
    simp [hu]

/-- Witness for claim C3 with the invalid role Superuser. -/
theorem claim_C3_witness :
    addOrgUserHelper (mkServer storeAlreadyMember)
        { loginOrEmail := "alice", role := "Superuser", orgId := 1, userId := 0 } ()
      = ⟨.error 400 "Invalid role specified", (), []⟩
    ∧ updateOrgUserHelper (mkServer storeAlreadyMember)
        { role := "Superuser", orgId := 1, userId := 7 } ()
      = ⟨.error 400 "Invalid role specified", (), []⟩ :=
  claim_C3 Unit (mkServer storeAlreadyMember)
    { loginOrEmail := "alice", role := "Superuser", orgId := 1, userId := 0 }
    { role := "Superuser", orgId := 1, userId := 7 } () (by decide) (by decide)

/-- Claim C6, counterexample: a lookup failure that is a transport error, not
an absent user, is still answered with HTTP 404, not the claimed 500. -/
theorem claim_C6_counterexample :
    (addOrgUserHelper (mkServer storeDbDown) addAliceCmd ()).resp
      = .error 404 "User not found"
    ∧ (addOrgUserHelper (mkServer storeDbDown) addAliceCmd ()).resp.status ≠ 500 := by
  decide

/-- Claim C6, amended: with a valid role, the handler returns HTTP 404 "User
not found" whenever the user lookup returns any error, absent user and store
or transport failures alike; lookup failures are never mapped to 500. -/
theorem claim_C6 (σ : Type) (hs : HTTPServer σ) (cmd : AddOrgUserCommand)
    (s s1 : σ) (e : StoreError)
    (hrole : RoleType.isValid cmd.role = true)
    (hlookup : hs.store.getUserByLogin cmd.loginOrEmail s = (.error e, s1)) :
    addOrgUserHelper hs cmd s
      = ⟨.error 404 "User not found", s1, [.getUserByLogin cmd.loginOrEmail]⟩ := by
  unfold addOrgUserHelper
  simp [hrole, hlookup]

/-- Witness for claim C6 at the fixture input. -/
theorem claim_C6_witness :
    addOrgUserHelper (mkServer storeDbDown) addAliceCmd ()
      = ⟨.error 404 "User not found", (), [.getUserByLogin "alice"]⟩ :=
  claim_C6 Unit (mkServer storeDbDown) addAliceCmd () ()
    (.other "connection refused") (by decide) rfl

/-- The remove helper always issues exactly its one store call. -/
theorem removeOrgUserHelper_calls (σ : Type) (hs : HTTPServer σ)
    (cmd : RemoveOrgUserCommand) (s : σ) :
    (removeOrgUserHelper hs cmd s).calls = [.removeOrgUser cmd] := by
  unfold removeOrgUserHelper
  cases hq : hs.store.removeOrgUser cmd s with
  | mk res s1 =>
    cases res <;> dsimp only <;> split <;> rfl

/-- Claim C9: the current-org removal endpoint always issues its store call
with ShouldDeleteOrphanedUser true, while the explicit-org endpoint always
issues it with the flag false, so only the former can trigger orphan account
deletion. -/
theorem claim_C9 (σ : Type) (hs : HTTPServer σ) (c : ReqContext) (s : σ) :
    (RemoveOrgUserForCurrentOrg hs c s).calls
      = [.removeOrgUser ⟨c.paramUserId, c.orgId, true⟩]
    ∧ (RemoveOrgUser hs c s).calls
      = [.removeOrgUser ⟨c.paramUserId, c.paramOrgId, false⟩] := by
  constructor
  · exact removeOrgUserHelper_calls σ hs _ s
  · exact removeOrgUserHelper_calls σ hs _ s

/-- Claim C5: the paged search replaces perpage values at most 0 by 1000 and
page values below 1 by 1 before the store query, passes in-range values
through unchanged, and the success envelope echoes exactly these effective
values. -/
theorem claim_C5 (σ : Type) (hs : HTTPServer σ) (c : ReqContext) (s : σ) :
    (SearchOrgUsersWithPaging hs c s).calls
      = [.searchOrgUsers ⟨c.orgId, c.queryQuery,
          if c.queryPerpage ≤ 0 then 1000 else c.queryPerpage,
          if c.queryPage < 1 then 1 else c.queryPage⟩]
    ∧ (∀ r : SearchOrgUsersQueryResult,
        (SearchOrgUsersWithPaging hs c s).resp = .json 200 (.search r) →
        r.page = (if c.queryPage < 1 then 1 else c.queryPage)
        ∧ r.perPage = (if c.queryPerpage ≤ 0 then 1000 else c.queryPerpage)) := by
  unfold SearchOrgUsersWithPaging
  dsimp only
  cases hq : hs.store.searchOrgUsers
      ⟨c.orgId, c.queryQuery,
        if c.queryPerpage ≤ 0 then 1000 else c.queryPerpage,
        if c.queryPage < 1 then 1 else c.queryPage⟩ s with
  | mk res s1 =>
    cases res with
    | error e =>
      refine ⟨rfl, ?_⟩
      intro r hr
      simp at hr
    | ok result =>
      refine ⟨rfl, ?_⟩
      intro r hr
      dsimp only at hr
      simp only [Resp.json.injEq, Body.search.injEq] at hr
      obtain ⟨-, hr⟩ := hr
      subst hr
      exact ⟨rfl, rfl⟩

/-- Fixture search store: two rows, one of them hidden. -/
def storeSearchFixture : Store Unit :=
  constStore (.ok aliceUser) (.ok ()) (.ok ()) (.ok false) (.ok [aliceDto, hiddenDto])
    (.ok { totalCount := 2, orgUsers := [aliceDto, hiddenDto], page := 0, perPage := 0 })

/-- Witness for claim C5: perpage 0 becomes 1000 and page 0 becomes 1, both
in the issued store query and in the response envelope. -/
theorem claim_C5_witness :
    (SearchOrgUsersWithPaging (mkServer storeSearchFixture) baseCtx ()).calls
      = [.searchOrgUsers ⟨1, "", 1000, 1⟩]
    ∧ ({ totalCount := 2,
         orgUsers := [{ aliceDto with avatarUrl := "gravatar:alice@example.com" }],
         page := 1, perPage := 1000 : SearchOrgUsersQueryResult }.page = 1
       ∧ ({ totalCount := 2,
            orgUsers := [{ aliceDto with avatarUrl := "gravatar:alice@example.com" }],
            page := 1, perPage := 1000 : SearchOrgUsersQueryResult }.perPage = 1000)) :=
  ⟨(claim_C5 Unit (mkServer storeSearchFixture) baseCtx ()).1,
   (claim_C5 Unit (mkServer storeSearchFixture) baseCtx ()).2
     { totalCount := 2,
       orgUsers := [{ aliceDto with avatarUrl := "gravatar:alice@example.com" }],
       page := 1, perPage := 1000 } rfl⟩

/-- On access-control enrichment failure the list helper still returns the
filtered, avatar-annotated users with no error. -/
theorem getOrgUsersHelper_acError (σ : Type) (hs : HTTPServer σ) (c : ReqContext)
    (q : GetOrgUsersQuery) (su : SignedInUser) (s s1 : σ) (rows : List OrgUserDTO)
    (emsg : String)
    (hget : hs.store.getOrgUsers q s = (.ok rows, s1))
    (hac : getUserAccessControlMetadata hs c
      (orgUserResourceIDs (filterHiddenAndSetAvatar hs su rows)) = .error emsg) :
    getOrgUsersHelper hs c q su s = (.ok (filterHiddenAndSetAvatar hs su rows), s1) := by
  unfold getOrgUsersHelper
  simp [hget, hac]

/-- Claim C7: when the metadata enrichment step fails, the error is swallowed:
the list helper returns the filtered, avatar-annotated users without any
metadata assignment pass, and the list endpoint still answers HTTP 200 with
that list. -/
theorem claim_C7 (σ : Type) (hs : HTTPServer σ) (c : ReqContext)
    (q : GetOrgUsersQuery) (su : SignedInUser) (s : σ) :
    (∀ rows s1 emsg,
      hs.store.getOrgUsers q s = (.ok rows, s1) →
      getUserAccessControlMetadata hs c
          (orgUserResourceIDs (filterHiddenAndSetAvatar hs su rows)) = .error emsg →
      getOrgUsersHelper hs c q su s = (.ok (filterHiddenAndSetAvatar hs su rows), s1))
    ∧ (∀ rows s1 emsg,
      hs.store.getOrgUsers ⟨c.orgId, c.queryQuery, c.queryLimit⟩ s = (.ok rows, s1) →
      getUserAccessControlMetadata hs c
          (orgUserResourceIDs (filterHiddenAndSetAvatar hs c.signedInUser rows))
        = .error emsg →
      GetOrgUsersForCurrentOrg hs c s
        = (.json 200 (.users (filterHiddenAndSetAvatar hs c.signedInUser rows)), s1)) := by
  constructor
  · intro rows s1 emsg hget hac
    exact getOrgUsersHelper_acError σ hs c q su s s1 rows emsg hget hac
  · intro rows s1 emsg hget hac
    unfold GetOrgUsersForCurrentOrg
    rw [getOrgUsersHelper_acError σ hs c ⟨c.orgId, c.queryQuery, c.queryLimit⟩
      c.signedInUser s s1 rows emsg hget hac]

/-- Access-control engine fixture whose permission query fails. -/
def acBroken : AccessControl where
  isDisabled := false
  getUserPermissions := fun _ => .error "boom"
  getResourcesMetadata := fun _ _ _ => []

/-- Server fixture with a failing access-control engine and two stored rows. -/
def serverAcBroken : HTTPServer Unit :=
  { mkServer (constStore (.ok aliceUser) (.ok ()) (.ok ()) (.ok false)
      (.ok [aliceDto, hiddenDto]) (.ok emptySearchResult)) with
    accessControl := some acBroken }

/-- Context fixture that explicitly requests access-control metadata. -/
def ctxWithAc : ReqContext := { baseCtx with queryAccesscontrol := true }

/-- Witness for claim C7: with the failing engine the list endpoint still
answers 200 with the filtered, avatar-annotated row. -/
theorem claim_C7_witness :
    GetOrgUsersForCurrentOrg serverAcBroken ctxWithAc ()
      = (.json 200 (.users [{ aliceDto with avatarUrl := "gravatar:alice@example.com" }]),
         ()) :=
  (claim_C7 Unit serverAcBroken ctxWithAc ⟨1, "", 0⟩ ctxWithAc.signedInUser ()).2
    [aliceDto, hiddenDto] () "boom" rfl rfl

/-- Every user surviving the visibility pass is not hidden. -/
theorem mem_filterHidden_not_hidden (σ : Type) (hs : HTTPServer σ) (su : SignedInUser)
    (rows : List OrgUserDTO) (u : OrgUserDTO)
    (hu : u ∈ filterHiddenAndSetAvatar hs su rows) :
    hs.isHiddenUser u.login su hs.cfg = false := by
  unfold filterHiddenAndSetAvatar at hu
  simp only [List.mem_map, List.mem_filter] at hu
  obtain ⟨v, ⟨hv, hvh⟩, rfl⟩ := hu
  simpa using hvh

/-- Every non-hidden store row survives the visibility pass with its identity
fields intact. -/
theorem filterHidden_complete (σ : Type) (hs : HTTPServer σ) (su : SignedInUser)
    (rows : List OrgUserDTO) (v : OrgUserDTO)
    (hv : v ∈ rows) (hnh : hs.isHiddenUser v.login su hs.cfg = false) :
    ∃ u ∈ filterHiddenAndSetAvatar hs su rows,
      u.userId = v.userId ∧ u.login = v.login := by
  refine ⟨{ v with avatarUrl := hs.getGravatarUrl v.email }, ?_, rfl, rfl⟩
  unfold filterHiddenAndSetAvatar
  simp only [List.mem_map, List.mem_filter]
  exact ⟨v, ⟨hv, by simp [hnh]⟩, rfl⟩

/-- A successful list-helper result comes from a successful store read and is
the filtered list, possibly after the metadata-assignment pass, which touches
only the accessControl field. -/
theorem getOrgUsersHelper_ok_shape (σ : Type) (hs : HTTPServer σ) (c : ReqContext)
    (q : GetOrgUsersQuery) (su : SignedInUser) (s : σ) (us : List OrgUserDTO)
    (h : (getOrgUsersHelper hs c q su s).1 = .ok us) :
    ∃ rows s1, hs.store.getOrgUsers q s = (.ok rows, s1)
      ∧ (us = filterHiddenAndSetAvatar hs su rows
         ∨ ∃ md, us = (filterHiddenAndSetAvatar hs su rows).map
             (fun u => { u with accessControl := metaLookup md (toString u.userId) })) := by
  unfold getOrgUsersHelper at h
  cases hq : hs.store.getOrgUsers q s with
  | mk res s1 =>
    rw [hq] at h
    cases res with
    | error e => simp at h
    | ok rows =>
      dsimp only at h
      refine ⟨rows, s1, rfl, ?_⟩
      cases hac : getUserAccessControlMetadata hs c
          (orgUserResourceIDs (filterHiddenAndSetAvatar hs su rows)) with
      | error emsg =>
        rw [hac] at h
        dsimp only at h
        injection h with h
        exact Or.inl h.symm
      | ok md =>
        rw [hac] at h
        dsimp only at h
        injection h with h
        exact Or.inr ⟨md, h.symm⟩

/-- No hidden user appears in a successful list-helper result. -/
theorem getOrgUsersHelper_ok_not_hidden (σ : Type) (hs : HTTPServer σ) (c : ReqContext)
    (q : GetOrgUsersQuery) (su : SignedInUser) (s : σ) (us : List OrgUserDTO)
    (u : OrgUserDTO)
    (h : (getOrgUsersHelper hs c q su s).1 = .ok us) (hu : u ∈ us) :
    hs.isHiddenUser u.login su hs.cfg = false := by
  obtain ⟨rows, s1, hget, hshape⟩ := getOrgUsersHelper_ok_shape σ hs c q su s us h
  cases hshape with
  | inl he =>
    subst he
    exact mem_filterHidden_not_hidden σ hs su rows u hu
  | inr hex =>
    obtain ⟨md, he⟩ := hex
    subst he
    simp only [List.mem_map] at hu
    obtain ⟨w, hw, rfl⟩ := hu
    exact mem_filterHidden_not_hidden σ hs su rows w hw

/-- Every non-hidden row the store returned appears, with its identity
fields, in a successful list-helper result. -/
theorem getOrgUsersHelper_ok_complete (σ : Type) (hs : HTTPServer σ) (c : ReqContext)
    (q : GetOrgUsersQuery) (su : SignedInUser) (s s1 : σ)
    (us rows : List OrgUserDTO) (v : OrgUserDTO)
    (hget : hs.store.getOrgUsers q s = (.ok rows, s1))
    (h : (getOrgUsersHelper hs c q su s).1 = .ok us)
    (hv : v ∈ rows) (hnh : hs.isHiddenUser v.login su hs.cfg = false) :
    ∃ u ∈ us, u.userId = v.userId ∧ u.login = v.login := by
  obtain ⟨rows2, s12, hget2, hshape⟩ := getOrgUsersHelper_ok_shape σ hs c q su s us h
  rw [hget] at hget2
  injection hget2 with ha hb
  injection ha with ha
  subst ha
  obtain ⟨u, hu, h1, h2⟩ := filterHidden_complete σ hs su rows v hv hnh
  cases hshape with
  | inl he =>
    subst he
    exact ⟨u, hu, h1, h2⟩
  | inr hex =>
    obtain ⟨md, he⟩ := hex
    subst he
    exact ⟨{ u with accessControl := metaLookup md (toString u.userId) },
      List.mem_map.mpr ⟨u, hu, rfl⟩, h1, h2⟩

/-- Claim C4: across the list, lookup, and paged-search paths, no returned
user is one the visibility filter marks hidden, and every non-hidden user the
store returned appears in the response. -/
theorem claim_C4 (σ : Type) (hs : HTTPServer σ) (c : ReqContext)
    (q : GetOrgUsersQuery) (su : SignedInUser) (s : σ) :
    (∀ us, (getOrgUsersHelper hs c q su s).1 = .ok us →
      (∀ u ∈ us, hs.isHiddenUser u.login su hs.cfg = false)
      ∧ (∀ rows s1, hs.store.getOrgUsers q s = (.ok rows, s1) →
          ∀ v ∈ rows, hs.isHiddenUser v.login su hs.cfg = false →
            ∃ u ∈ us, u.userId = v.userId ∧ u.login = v.login))
    ∧ (∀ ls s1, GetOrgUsersForCurrentOrgLookup hs c s = (.json 200 (.lookups ls), s1) →
        ∀ l ∈ ls, hs.isHiddenUser l.login c.signedInUser hs.cfg = false)
    ∧ (∀ r, (SearchOrgUsersWithPaging hs c s).resp = .json 200 (.search r) →
        (∀ u ∈ r.orgUsers, hs.isHiddenUser u.login c.signedInUser hs.cfg = false)
        ∧ (∀ q2 res s1, (SearchOrgUsersWithPaging hs c s).calls = [.searchOrgUsers q2] →
            hs.store.searchOrgUsers q2 s = (.ok res, s1) →
            ∀ v ∈ res.orgUsers, hs.isHiddenUser v.login c.signedInUser hs.cfg = false →
              ∃ u ∈ r.orgUsers, u.userId = v.userId ∧ u.login = v.login)) := by
  refine ⟨?_, ?_, ?_⟩
  · intro us h
    exact ⟨fun u hu => getOrgUsersHelper_ok_not_hidden σ hs c q su s us u h hu,
      fun rows s1 hget v hv hnh =>
        getOrgUsersHelper_ok_complete σ hs c q su s s1 us rows v hget h hv hnh⟩
  · intro ls s1 h l hl
    unfold GetOrgUsersForCurrentOrgLookup at h
    cases hh : getOrgUsersHelper hs c ⟨c.orgId, c.queryQuery, c.queryLimit⟩
        c.signedInUser s with
    | mk res s2 =>
      rw [hh] at h
      cases res with
      | error e => simp at h
      | ok us =>
        dsimp only at h
        simp only [Prod.mk.injEq, Resp.json.injEq, Body.lookups.injEq] at h
        obtain ⟨⟨-, hls⟩, -⟩ := h
        subst hls
        simp only [List.mem_map] at hl
        obtain ⟨u, hu, rfl⟩ := hl
        have h1 : (getOrgUsersHelper hs c ⟨c.orgId, c.queryQuery, c.queryLimit⟩
            c.signedInUser s).1 = .ok us := by rw [hh]
        exact getOrgUsersHelper_ok_not_hidden σ hs c _ c.signedInUser s us u h1 hu
  · intro r hr
    unfold SearchOrgUsersWithPaging at hr ⊢
    dsimp only at hr ⊢
    cases hq : hs.store.searchOrgUsers
        ⟨c.orgId, c.queryQuery,
          if c.queryPerpage ≤ 0 then 1000 else c.queryPerpage,
          if c.queryPage < 1 then 1 else c.queryPage⟩ s with
    | mk res0 s1 =>
      rw [hq] at hr
      cases res0 with
      | error e => simp at hr
      | ok result =>
        dsimp only at hr
        simp only [Resp.json.injEq, Body.search.injEq] at hr
        obtain ⟨-, hr⟩ := hr
        subst hr
        constructor
        · intro u hu
          exact mem_filterHidden_not_hidden σ hs c.signedInUser result.orgUsers u hu
        · intro q2 res s2 hcalls hq2 v hv hnh
          dsimp only at hcalls
          simp only [List.cons.injEq, StoreCall.searchOrgUsers.injEq, and_true] at hcalls
          subst hcalls
          rw [hq] at hq2
          injection hq2 with ha hb
          injection ha with ha
          subst ha
          exact filterHidden_complete σ hs c.signedInUser result.orgUsers v hv hnh

/-- Witness for claim C4: with a store returning alice and a hidden row, the
returned alice record is not hidden, and alice appears in the response. -/
theorem claim_C4_witness :
    (mkServer storeSearchFixture).isHiddenUser
        ({ aliceDto with avatarUrl := "gravatar:alice@example.com" } : OrgUserDTO).login
        baseCtx.signedInUser (mkServer storeSearchFixture).cfg = false
    ∧ ∃ u ∈ [({ aliceDto with avatarUrl := "gravatar:alice@example.com" } : OrgUserDTO)],
        u.userId = aliceDto.userId ∧ u.login = aliceDto.login :=
  ⟨((claim_C4 Unit (mkServer storeSearchFixture) baseCtx ⟨1, "", 0⟩
        baseCtx.signedInUser ()).1
      [{ aliceDto with avatarUrl := "gravatar:alice@example.com" }] rfl).1
    { aliceDto with avatarUrl := "gravatar:alice@example.com" } (by simp),
   ((claim_C4 Unit (mkServer storeSearchFixture) baseCtx ⟨1, "", 0⟩
        baseCtx.signedInUser ()).1
      [{ aliceDto with avatarUrl := "gravatar:alice@example.com" }] rfl).2
     [aliceDto, hiddenDto] () rfl aliceDto (by simp) (by decide)⟩

/-- Claim C8: with the delete prompt open for a permitted user, confirming
invokes the removal callback exactly once with that user record and leaves
the flag as is; dismissing emits no callback, clears the flag, and the
prompt for that user then renders closed. -/
theorem claim_C8 (ctx : Ui.ContextSrv) (st : Bool) (u : Ui.OrgUser)
    (hperm : ctx.hasRemovePermission u = true)
    (hopen : Ui.confirmModalIsOpen ctx st u = some true) :
    Ui.usersTableStep st (.confirmRemove u) = (st, [.onRemoveUser u])
    ∧ Ui.usersTableStep st (.dismissRemove u) = (false, [])
    ∧ (u.login ≠ "" → Ui.confirmModalIsOpen ctx false u = some false) := by
  refine ⟨rfl, rfl, ?_⟩
  intro hlogin
  unfold Ui.confirmModalIsOpen Ui.boolOfString
  simp [hperm, hlogin]

/-- UI context fixture where the viewer holds every permission. -/
def ctxAllPerms : Ui.ContextSrv :=
  { accessControlEnabled := true, hasRemovePermission := fun _ => true,
    hasRoleUpdatePermission := fun _ => true }

/-- UI row fixture. -/
def uiAlice : Ui.OrgUser :=
  { userId := 7, login := "alice", email := "alice@example.com", name := "Alice",
    avatarUrl := "", lastSeenAtAge := "10m", role := "Viewer" }

/-- UI row fixture with empty login. -/
def uiNoLogin : Ui.OrgUser :=
  { userId := 9, login := "", email := "svc@example.com", name := "Service",
    avatarUrl := "", lastSeenAtAge := "1m", role := "Viewer" }

/-- Witness for claim C8 at the fixture row. -/
theorem claim_C8_witness :
    Ui.usersTableStep true (.confirmRemove uiAlice) = (true, [.onRemoveUser uiAlice])
    ∧ Ui.usersTableStep true (.dismissRemove uiAlice) = (false, [])
    ∧ (uiAlice.login ≠ "" → Ui.confirmModalIsOpen ctxAllPerms false uiAlice = some false) :=
  claim_C8 ctxAllPerms true uiAlice rfl (by decide)

/-- Claim C10: the modal-open state is one boolean shared by all rows; with
the flag set, the rows whose confirm modal renders open are exactly the
listed users that have a non-empty login and the remove permission, not only
the row whose delete button was clicked. -/
theorem claim_C10 (ctx : Ui.ContextSrv) (users : List Ui.OrgUser) :
    Ui.openRemoveModals ctx true users
      = users.filter (fun u => ctx.hasRemovePermission u && u.login != "")
    ∧ (∀ u ∈ users, ctx.hasRemovePermission u = true → u.login ≠ "" →
        Ui.confirmModalIsOpen ctx true u = some true) := by
  constructor
  · unfold Ui.openRemoveModals
    apply List.filter_congr
    intro u _
    unfold Ui.confirmModalIsOpen Ui.boolOfString
    cases h : ctx.hasRemovePermission u <;> simp [h]
  · intro u _ hperm hlogin
    unfold Ui.confirmModalIsOpen Ui.boolOfString
    simp [hperm, hlogin]

/-- Witness for claim C10: with the flag set and the viewer permitted on each
row, both listed users with a login render their modal open, while the
empty-login row does not. -/
theorem claim_C10_witness :
    Ui.openRemoveModals ctxAllPerms true [uiAlice, uiNoLogin]
      = [uiAlice, uiNoLogin].filter
          (fun u => ctxAllPerms.hasRemovePermission u && u.login != "")
    ∧ Ui.confirmModalIsOpen ctxAllPerms true uiAlice = some true :=
  ⟨(claim_C10 ctxAllPerms [uiAlice, uiNoLogin]).1,
   (claim_C10 ctxAllPerms [uiAlice, uiNoLogin]).2 uiAlice (by simp) rfl (by decide)⟩

end OrgUsers
